import Mathlib

/-!
Verification of the push-button demo (`src/lab3/push_button_demo.cpp`).

The program is a polling control loop over a memory-mapped FPGA register
bank: it reads the push-button register, decodes it to a `PushButton`
event, debounces against the previous event, dispatches to mutate a
`WrappedCounter`, and writes the counter to the LED register.

The embedding below is shallow: the counter and the loop body are pure
Lean functions; machine integers (`std::uint64_t` for the counter,
`std::uint32_t` for registers) are `Nat` with explicit reduction modulo
`2 ^ 64` / `2 ^ 32` exactly where the C++ arithmetic can wrap; the
hardware reads consumed by the loop (decoded button events and raw
switch-register values) are passed in as explicit inputs, and the LED
writes and switch reads are returned as explicit outputs.
-/

/-- The modulus of `std::uint64_t` (the counter's `Count` type), `2 ^ 64`. -/
def U64 : Nat := 18446744073709551616

/-- The modulus of `std::uint32_t` (the FPGA `Register` type), `2 ^ 32`. -/
def U32 : Nat := 4294967296

/-- The state of the board's switches that signals the program to exit
(`constexpr Register SWITCH_EXIT_SENTINEL = 0`, line 38). -/
def SWITCH_EXIT_SENTINEL : Nat := 0

/-- A counter over an interval `[0, max]` that wraps around its endpoints
(class `WrappedCounter`, lines 44-114).  Field names follow the source,
including the `m_couter` spelling.  Values are `Nat` images of
`std::uint64_t` values, so they are `< 2 ^ 64` in every reachable state. -/
structure WrappedCounter where
  m_couter : Nat
  m_max : Nat
deriving DecidableEq, Repr

/-- The constructor `WrappedCounter(Count max)`: the value starts at 0
(member initializer `Count m_couter{0}`, line 53). -/
def WrappedCounter.make (max : Nat) : WrappedCounter :=
  { m_couter := 0, m_max := max }

/-- The implicit conversion `operator Count()` (line 75): returns the
current counter state. -/
def WrappedCounter.toCount (c : WrappedCounter) : Nat := c.m_couter

/-- `WrappedCounter::apply` (lines 83-87):
`m_couter = func(m_couter) % (m_max + 1)`.  The inner `% U64` models the
`std::uint64_t` codomain of the `std::function<Count(Count)>` argument:
whatever the callable computes is delivered as a 64-bit value. -/
def WrappedCounter.apply (c : WrappedCounter) (func : Nat → Nat) : WrappedCounter :=
  { c with m_couter := (func c.m_couter % U64) % (c.m_max + 1) }

/-- Prefix `operator++` (lines 89-93):
`m_couter = m_couter == m_max ? 0 : m_couter + 1; return m_couter;`.
The `% U64` models 64-bit wraparound of the `+ 1`.  Returns the pair
(updated counter, returned `Count`). -/
def WrappedCounter.inc (c : WrappedCounter) : WrappedCounter × Nat :=
  let m := if c.m_couter = c.m_max then 0 else (c.m_couter + 1) % U64
  ({ c with m_couter := m }, m)

/-- Prefix `operator--` (lines 95-99):
`m_couter = m_couter == 0 ? m_max : m_couter - 1; return m_couter;`.
No wrap is needed: the subtraction only runs when `m_couter ≠ 0`. -/
def WrappedCounter.dec (c : WrappedCounter) : WrappedCounter × Nat :=
  let m := if c.m_couter = 0 then c.m_max else c.m_couter - 1
  ({ c with m_couter := m }, m)

/-- Postfix `operator++` (lines 101-106): updates and returns the old value. -/
def WrappedCounter.incPost (c : WrappedCounter) : WrappedCounter × Nat :=
  ((c.inc).1, c.m_couter)

/-- Postfix `operator--` (lines 108-113): updates and returns the old value. -/
def WrappedCounter.decPost (c : WrappedCounter) : WrappedCounter × Nat :=
  ((c.dec).1, c.m_couter)

/-- The closed set of decoded button events (enum `PushButton` from
`prelab/prelab_fpga.h`, used throughout `run_button_demo`). -/
inductive PushButton where
  | None
  | Button0
  | Button1
  | Button2
  | Button3
  | Multiple
deriving DecidableEq, Repr

/-- Modelled from the spec: the input decoder `PushButtonGet` is declared in
`prelab/prelab_fpga.h`, which is not part of the repository snapshot; only
its callers appear in `src/lab3/push_button_demo.cpp`.  Spec section 4.4:
zero bits set maps to `None`, exactly one bit set maps to the
`Button{0,1,2,3}` of that bit's position, and any other pattern maps to
`Multiple`.  Only four button lines exist (bits 0-3), so the recognised
single-button patterns are exactly `1`, `2`, `4`, `8`; every remaining
nonzero pattern falls to `Multiple`, which makes the function total on all
32-bit register values as the spec requires. -/
def PushButtonGet (state : Nat) : PushButton :=
  if state = 0 then PushButton.None
  else if state = 1 then PushButton.Button0
  else if state = 2 then PushButton.Button1
  else if state = 4 then PushButton.Button2
  else if state = 8 then PushButton.Button3
  else PushButton.Multiple

/-- Bit-population count with explicit fuel, one bit per step of fuel. -/
def popcountAux : Nat → Nat → Nat
  | 0, _ => 0
  | fuel + 1, n => n % 2 + popcountAux fuel (n / 2)

/-- Population count of a 32-bit register value (counts the low 32 bits,
which is all of them for `n < U32`). -/
def popcount (n : Nat) : Nat := popcountAux 32 n

/-- Whether a decoded event is a single discrete button (exactly one of the
four button lines active). -/
def isSingleButton : PushButton → Bool
  | PushButton.Button0 => true
  | PushButton.Button1 => true
  | PushButton.Button2 => true
  | PushButton.Button3 => true
  | _ => false

/-- The persistent state of `run_button_demo`'s loop (lines 132-143):
the LED counter, the previous cycle's decoded button state, and the
`run_demo` continuation flag. -/
structure DemoState where
  counter : WrappedCounter
  previous_button : PushButton
  run_demo : Bool
deriving DecidableEq, Repr

/-- The externally visible outcome of one loop iteration: the new state,
the value written to the LED register (`none` when the debounce gate
skipped the iteration), and whether `ReadAllSwitches` was invoked. -/
structure StepOut where
  state : DemoState
  led_write : Option Nat
  switch_read : Bool
deriving DecidableEq, Repr

/-- One iteration of the `while (run_demo)` body of `run_button_demo`
(lines 143-197), given the decoded button read `button_press` and the raw
switch-register value `switch_state` that `ReadAllSwitches` would return
this cycle.  The debounce gate (lines 149-157) skips the whole rest of the
iteration; otherwise the `switch` dispatch (lines 159-190) runs, the LED
register is written with the counter cast to `Register` (line 193), and
`previous_button` is updated (line 194). -/
def step (s : DemoState) (button_press : PushButton) (switch_state : Nat) : StepOut :=
  if (s.previous_button = PushButton.Multiple ∧ button_press ≠ PushButton.None)
      ∨ button_press = s.previous_button then
    { state := s, led_write := none, switch_read := false }
  else
    match button_press with
    | PushButton.None =>
      { state := { counter := s.counter, previous_button := button_press,
                   run_demo := s.run_demo },
        led_write := some (s.counter.toCount % U32), switch_read := false }
    | PushButton.Button0 =>
      let c := (s.counter.inc).1
      { state := { counter := c, previous_button := button_press, run_demo := s.run_demo },
        led_write := some (c.toCount % U32), switch_read := false }
    | PushButton.Button1 =>
      let c := (s.counter.dec).1
      { state := { counter := c, previous_button := button_press, run_demo := s.run_demo },
        led_write := some (c.toCount % U32), switch_read := false }
    | PushButton.Button2 =>
      let c := s.counter.apply (fun count => count >>> 1)
      { state := { counter := c, previous_button := button_press, run_demo := s.run_demo },
        led_write := some (c.toCount % U32), switch_read := false }
    | PushButton.Button3 =>
      let c := s.counter.apply (fun count => count <<< 1)
      { state := { counter := c, previous_button := button_press, run_demo := s.run_demo },
        led_write := some (c.toCount % U32), switch_read := false }
    | PushButton.Multiple =>
      let c := s.counter.apply (fun _ => switch_state)
      let r := if switch_state = SWITCH_EXIT_SENTINEL then false else s.run_demo
      { state := { counter := c, previous_button := button_press, run_demo := r },
        led_write := some (c.toCount % U32), switch_read := true }

/-- Runs the control loop on a finite stream of per-iteration inputs
(decoded button read, raw switch value).  The `while (run_demo)` guard is
checked before each button read, so once `run_demo` is false no further
input is consumed.  Returns the final state, the list of LED-register
writes in order, and the number of switch reads performed. -/
def runLoop : DemoState → List (PushButton × Nat) → DemoState × List Nat × Nat
  | s, [] => (s, [], 0)
  | s, (b, sw) :: rest =>
    if s.run_demo = true then
      let o := step s b sw
      let r := runLoop o.state rest
      (r.1, o.led_write.toList ++ r.2.1, (if o.switch_read = true then 1 else 0) + r.2.2)
    else (s, [], 0)

/-- The end-to-end scenario state of spec section 8: `max = 15`, counter
starting at `15`, `previous_button` starting at `None`. -/
def scenarioInit : DemoState :=
  { counter := { m_couter := 15, m_max := 15 }, previous_button := PushButton.None,
    run_demo := true }

/-- The end-to-end scenario's decoded button reads `Button0, Button0, None,
Button1`; the switch values are irrelevant (no `Multiple` event occurs). -/
def scenarioInputs : List (PushButton × Nat) :=
  [(PushButton.Button0, 0), (PushButton.Button0, 0),
   (PushButton.None, 0), (PushButton.Button1, 0)]

/-! ### Basic lemmas about the counter operations -/

theorem apply_m_couter (c : WrappedCounter) (func : Nat → Nat) :
    (c.apply func).m_couter = (func c.m_couter % U64) % (c.m_max + 1) := rfl

theorem apply_m_max (c : WrappedCounter) (func : Nat → Nat) :
    (c.apply func).m_max = c.m_max := rfl

theorem inc_fst_eq (c : WrappedCounter) (hmax : c.m_max < U64) (hv : c.m_couter ≤ c.m_max) :
    (c.inc).1 = { m_couter := (c.m_couter + 1) % (c.m_max + 1), m_max := c.m_max } := by
  unfold WrappedCounter.inc
  by_cases h : c.m_couter = c.m_max
  · simp [h, Nat.mod_self]
  · have hlt : c.m_couter < c.m_max := lt_of_le_of_ne hv h
    have h1 : c.m_couter + 1 < U64 := by omega
    have h2 : c.m_couter + 1 < c.m_max + 1 := by omega
    simp [h, Nat.mod_eq_of_lt h1, Nat.mod_eq_of_lt h2]

theorem dec_fst_eq (c : WrappedCounter) :
    (c.dec).1 = { m_couter := if c.m_couter = 0 then c.m_max else c.m_couter - 1,
                  m_max := c.m_max } := rfl

/-- Claim C1: `apply(f)` stores `f(old_value) mod (max + 1)`, hence a value
in `[0, max]`, for every `f` into the 64-bit `Count` type; and the range
invariant `value ∈ [0, max]` is preserved by every counter operation
(`apply` unconditionally, `increment`/`decrement` from any in-range state). -/
theorem c1_apply_wraps (c : WrappedCounter) (f : Nat → Nat) (hf : ∀ x, f x < U64) :
    (c.apply f).m_couter = f c.m_couter % (c.m_max + 1) ∧
    (c.apply f).m_couter ≤ c.m_max ∧
    (∀ g : Nat → Nat, (c.apply g).m_couter ≤ c.m_max) ∧
    (c.m_couter ≤ c.m_max →
      (c.inc).1.m_couter ≤ c.m_max ∧ (c.dec).1.m_couter ≤ c.m_max) := by
  have hbound : ∀ g : Nat → Nat, (c.apply g).m_couter ≤ c.m_max := by
    intro g
    rw [apply_m_couter]
    exact Nat.lt_succ_iff.mp (Nat.mod_lt _ (Nat.succ_pos _))
  refine ⟨?_, hbound f, hbound, ?_⟩
  · rw [apply_m_couter, Nat.mod_eq_of_lt (hf c.m_couter)]
  · intro hv
    constructor
    · unfold WrappedCounter.inc
      by_cases h : c.m_couter = c.m_max
      · simp [h]
      · have hlt : c.m_couter < c.m_max := lt_of_le_of_ne hv h
        simp only [h, if_false]
        exact le_trans (Nat.mod_le _ _) (by omega)
    · unfold WrappedCounter.dec
      by_cases h : c.m_couter = 0
      · simp [h]
      · simp only [h, if_false]
        omega

theorem c1_apply_wraps_witness :
    ((100 : Nat) < U64) ∧
    (((⟨3, 15⟩ : WrappedCounter).apply (fun _ => 100)).m_couter = 100 % 16 ∧
      ((⟨3, 15⟩ : WrappedCounter).apply (fun _ => 100)).m_couter ≤ 15 ∧
      (∀ g : Nat → Nat, ((⟨3, 15⟩ : WrappedCounter).apply g).m_couter ≤ 15) ∧
      ((3 : Nat) ≤ 15 →
        (((⟨3, 15⟩ : WrappedCounter).inc).1.m_couter ≤ 15 ∧
          ((⟨3, 15⟩ : WrappedCounter).dec).1.m_couter ≤ 15))) :=
  ⟨by decide, c1_apply_wraps ⟨3, 15⟩ (fun _ => 100) (fun _ => by norm_num [U64])⟩

/-- Claim C2: from any in-range value, `increment` sets the value to `0`
when `value = max` and to `value + 1` otherwise, and returns the new value. -/
theorem c2_increment (c : WrappedCounter) (hv : c.m_couter ≤ c.m_max)
    (hmax : c.m_max < U64) :
    (c.inc).1.m_couter = (if c.m_couter = c.m_max then 0 else c.m_couter + 1) ∧
    (c.inc).2 = (c.inc).1.m_couter := by
  refine ⟨?_, rfl⟩
  unfold WrappedCounter.inc
  by_cases h : c.m_couter = c.m_max
  · simp [h]
  · have hlt : c.m_couter < c.m_max := lt_of_le_of_ne hv h
    have h1 : c.m_couter + 1 < U64 := by omega
    simp [h, Nat.mod_eq_of_lt h1]

theorem c2_increment_witness :
    ((3 : Nat) ≤ 15 ∧ (15 : Nat) < U64) ∧
    (((⟨3, 15⟩ : WrappedCounter).inc).1.m_couter =
        (if (3 : Nat) = 15 then 0 else 3 + 1) ∧
      ((⟨3, 15⟩ : WrappedCounter).inc).2 = ((⟨3, 15⟩ : WrappedCounter).inc).1.m_couter) :=
  ⟨⟨by decide, by decide⟩, c2_increment ⟨3, 15⟩ (by decide) (by decide)⟩

/-- Claim C3: from any in-range value, `decrement` sets the value to `max`
when `value = 0` and to `value - 1` otherwise, and returns the new value. -/
theorem c3_decrement (c : WrappedCounter) (_hv : c.m_couter ≤ c.m_max) :
    (c.dec).1.m_couter = (if c.m_couter = 0 then c.m_max else c.m_couter - 1) ∧
    (c.dec).2 = (c.dec).1.m_couter :=
  ⟨rfl, rfl⟩

theorem c3_decrement_witness :
    (0 : Nat) ≤ 15 ∧
    (((⟨0, 15⟩ : WrappedCounter).dec).1.m_couter = (if (0 : Nat) = 0 then 15 else 0 - 1) ∧
      ((⟨0, 15⟩ : WrappedCounter).dec).2 = ((⟨0, 15⟩ : WrappedCounter).dec).1.m_couter) :=
  ⟨by decide, c3_decrement ⟨0, 15⟩ (by decide)⟩

/-- Claim C7: `increment` and `decrement` are mutual inverses on in-range
counter states under wraparound. -/
theorem c7_inc_dec_inverse (c : WrappedCounter) (hmax : c.m_max < U64)
    (hv : c.m_couter ≤ c.m_max) :
    ((c.inc).1.dec).1 = c ∧ ((c.dec).1.inc).1 = c := by
  obtain ⟨v, max⟩ := c
  simp only [WrappedCounter.mk.injEq] at *
  constructor
  · unfold WrappedCounter.inc WrappedCounter.dec
    by_cases h : v = max
    · simp [h]
    · have hlt : v < max := lt_of_le_of_ne hv h
      have h1 : v + 1 < U64 := by omega
      simp [h, Nat.mod_eq_of_lt h1]
  · unfold WrappedCounter.dec WrappedCounter.inc
    by_cases h : v = 0
    · simp [h]
    · have hne : v - 1 ≠ max := by omega
      have h1 : v - 1 + 1 < U64 := by omega
      simp [h, hne, Nat.mod_eq_of_lt h1]
      omega

theorem c7_inc_dec_inverse_witness :
    ((15 : Nat) < U64 ∧ (15 : Nat) ≤ 15) ∧
    ((((⟨15, 15⟩ : WrappedCounter).inc).1.dec).1 = ⟨15, 15⟩ ∧
      (((⟨15, 15⟩ : WrappedCounter).dec).1.inc).1 = ⟨15, 15⟩) :=
  ⟨⟨by decide, by decide⟩, c7_inc_dec_inverse ⟨15, 15⟩ (by decide) (by decide)⟩

theorem inc_iterate (max v n : Nat) (hmax : max < U64) (hv : v ≤ max) :
    (fun st : WrappedCounter => (st.inc).1)^[n] ⟨v, max⟩
      = ⟨(v + n) % (max + 1), max⟩ := by
  induction n with
  | zero => simp [Nat.mod_eq_of_lt (show v < max + 1 by omega)]
  | succ k ih =>
    rw [Function.iterate_succ_apply', ih]
    have hw : (v + k) % (max + 1) ≤ max :=
      Nat.lt_succ_iff.mp (Nat.mod_lt _ (Nat.succ_pos _))
    rw [inc_fst_eq ⟨(v + k) % (max + 1), max⟩ hmax hw]
    simp only [WrappedCounter.mk.injEq, and_true]
    rw [Nat.mod_add_mod, Nat.add_assoc]

/-- Claim C8: applying `increment` `max + 1` times in succession returns an
in-range counter to its original state (full-cycle wraparound). -/
theorem c8_full_cycle (c : WrappedCounter) (hmax : c.m_max < U64)
    (hv : c.m_couter ≤ c.m_max) :
    (fun st : WrappedCounter => (st.inc).1)^[c.m_max + 1] c = c := by
  obtain ⟨v, max⟩ := c
  dsimp only at hmax hv ⊢
  rw [inc_iterate max v (max + 1) hmax hv]
  simp only [WrappedCounter.mk.injEq, and_true]
  rw [Nat.add_mod_right]
  exact Nat.mod_eq_of_lt (by omega)

theorem c8_full_cycle_witness :
    ((15 : Nat) < U64 ∧ (5 : Nat) ≤ 15) ∧
    ((fun st : WrappedCounter => (st.inc).1)^[16] (⟨5, 15⟩ : WrappedCounter)
      = ⟨5, 15⟩) :=
  ⟨⟨by decide, by decide⟩, c8_full_cycle ⟨5, 15⟩ (by decide) (by decide)⟩

/-! ### Lemmas about the control loop -/

theorem step_skip (s : DemoState) (b : PushButton) (sw : Nat)
    (h : (s.previous_button = PushButton.Multiple ∧ b ≠ PushButton.None)
      ∨ b = s.previous_button) :
    step s b sw = { state := s, led_write := none, switch_read := false } := by
  unfold step
  rw [if_pos h]

theorem runLoop_halted (s : DemoState) (h : s.run_demo = false)
    (inputs : List (PushButton × Nat)) : runLoop s inputs = (s, [], 0) := by
  cases inputs with
  | nil => rfl
  | cons p rest =>
    obtain ⟨b, sw⟩ := p
    unfold runLoop
    rw [h]
    simp

theorem singleButton_ne_none (b : PushButton) (hb : isSingleButton b = true) :
    b ≠ PushButton.None := by
  cases b <;> simp_all [isSingleButton]

theorem runLoop_all_single_skipped (s : DemoState)
    (h : s.previous_button = PushButton.Multiple) :
    ∀ inputs : List (PushButton × Nat),
      (∀ p ∈ inputs, isSingleButton p.1 = true) → runLoop s inputs = (s, [], 0) := by
  intro inputs
  induction inputs with
  | nil => intro _; rfl
  | cons p rest ih =>
    intro hin
    obtain ⟨b, sw⟩ := p
    have hb : isSingleButton b = true := hin (b, sw) (List.mem_cons_self _ _)
    have hskip : step s b sw = { state := s, led_write := none, switch_read := false } :=
      step_skip s b sw (Or.inl ⟨h, singleButton_ne_none b hb⟩)
    have hrest : runLoop s rest = (s, [], 0) :=
      ih (fun q hq => hin q (List.mem_cons_of_mem _ hq))
    unfold runLoop
    by_cases hr : s.run_demo = true
    · rw [if_pos hr]
      simp [hskip, hrest]
    · rw [if_neg hr]

/-- Claim C4: from any loop state whose `previous_button` is `Multiple`,
a run in which every read decodes to a single discrete button takes no
dispatch action at all: the state (counter included) is unchanged, no LED
write and no switch read occurs, on the whole run and on every prefix of
it; and from such a state an iteration can perform any action (an LED
write or a switch read) only if its read decodes to `None`. -/
theorem c4_debounce_multiple (s : DemoState)
    (h : s.previous_button = PushButton.Multiple)
    (inputs : List (PushButton × Nat))
    (hin : ∀ p ∈ inputs, isSingleButton p.1 = true) :
    runLoop s inputs = (s, [], 0) ∧
    (∀ k, runLoop s (inputs.take k) = (s, [], 0)) ∧
    (∀ b sw, ((step s b sw).led_write ≠ none ∨ (step s b sw).switch_read = true) →
      b = PushButton.None) := by
  refine ⟨runLoop_all_single_skipped s h inputs hin, ?_, ?_⟩
  · intro k
    exact runLoop_all_single_skipped s h (inputs.take k)
      (fun p hp => hin p (List.take_subset k inputs hp))
  · intro b sw hact
    by_cases hb : b = PushButton.None
    · exact hb
    · exfalso
      have hskip : step s b sw = { state := s, led_write := none, switch_read := false } :=
        step_skip s b sw (Or.inl ⟨h, hb⟩)
      rw [hskip] at hact
      simp at hact

theorem c4_debounce_multiple_witness :
    ((⟨⟨3, 15⟩, PushButton.Multiple, true⟩ : DemoState).previous_button
       = PushButton.Multiple ∧
      (∀ p ∈ [((PushButton.Button0 : PushButton), (0 : Nat)),
              (PushButton.Button2, 9)], isSingleButton p.1 = true)) ∧
    (runLoop ⟨⟨3, 15⟩, PushButton.Multiple, true⟩
        [(PushButton.Button0, 0), (PushButton.Button2, 9)]
        = (⟨⟨3, 15⟩, PushButton.Multiple, true⟩, [], 0) ∧
      (∀ k, runLoop ⟨⟨3, 15⟩, PushButton.Multiple, true⟩
          ([(PushButton.Button0, 0), (PushButton.Button2, 9)].take k)
          = (⟨⟨3, 15⟩, PushButton.Multiple, true⟩, [], 0)) ∧
      (∀ b sw,
        ((step ⟨⟨3, 15⟩, PushButton.Multiple, true⟩ b sw).led_write ≠ none ∨
          (step ⟨⟨3, 15⟩, PushButton.Multiple, true⟩ b sw).switch_read = true) →
        b = PushButton.None)) :=
  ⟨⟨rfl, by decide⟩,
    c4_debounce_multiple ⟨⟨3, 15⟩, PushButton.Multiple, true⟩ rfl
      [(PushButton.Button0, 0), (PushButton.Button2, 9)] (by decide)⟩

/-- Claim C10: whenever the debounce gate fires (`previous_button` is
`Multiple` with a non-`None` read, or the read equals `previous_button`),
the whole rest of the iteration is skipped: the counter and
`previous_button` are unchanged, the LED register is not written, and no
switch read happens; only the sleep (outside this model) occurs. -/
theorem c10_gate_frame (s : DemoState) (b : PushButton) (sw : Nat)
    (h : (s.previous_button = PushButton.Multiple ∧ b ≠ PushButton.None)
      ∨ b = s.previous_button) :
    step s b sw = { state := s, led_write := none, switch_read := false } := by
  unfold step
  rw [if_pos h]

theorem c10_gate_frame_witness :
    (((⟨⟨3, 15⟩, PushButton.Multiple, true⟩ : DemoState).previous_button
        = PushButton.Multiple ∧ PushButton.Button0 ≠ PushButton.None) ∨
      PushButton.Button0
        = (⟨⟨3, 15⟩, PushButton.Multiple, true⟩ : DemoState).previous_button) ∧
    step ⟨⟨3, 15⟩, PushButton.Multiple, true⟩ PushButton.Button0 7
      = { state := ⟨⟨3, 15⟩, PushButton.Multiple, true⟩, led_write := none,
          switch_read := false } :=
  ⟨Or.inl ⟨rfl, by decide⟩,
    c10_gate_frame ⟨⟨3, 15⟩, PushButton.Multiple, true⟩ PushButton.Button0 7
      (Or.inl ⟨rfl, by decide⟩)⟩

theorem step_multiple (s : DemoState) (sw : Nat)
    (hprev : s.previous_button ≠ PushButton.Multiple) :
    step s PushButton.Multiple sw =
      { state := { counter := s.counter.apply (fun _ => sw),
                   previous_button := PushButton.Multiple,
                   run_demo := if sw = SWITCH_EXIT_SENTINEL then false else s.run_demo },
        led_write := some ((s.counter.apply (fun _ => sw)).toCount % U32),
        switch_read := true } := by
  unfold step
  rw [if_neg]
  rintro (⟨h1, _⟩ | h2)
  · exact hprev h1
  · exact hprev h2.symm

/-- Claim C5: on an iteration where the gate does not skip (for a
`Multiple` read this means `previous_button ≠ Multiple`) and the decoded
event is `Multiple`, the loop reads the switch register, sets the counter
to the switch value wrapped modulo `max + 1`, and writes it to the LEDs;
if the switch value is `SWITCH_EXIT_SENTINEL` (zero), `run_demo` is
cleared, this iteration's LED write is `0`, and the loop consumes no
further input (no further button reads) afterwards. -/
theorem c5_multiple_dispatch_exit (s : DemoState) (sw : Nat)
    (hprev : s.previous_button ≠ PushButton.Multiple) (hsw : sw < U32) :
    (step s PushButton.Multiple sw).switch_read = true ∧
    (step s PushButton.Multiple sw).state.counter.m_couter
      = sw % (s.counter.m_max + 1) ∧
    (step s PushButton.Multiple sw).led_write
      = some ((sw % (s.counter.m_max + 1)) % U32) ∧
    (sw = SWITCH_EXIT_SENTINEL →
      (step s PushButton.Multiple sw).state.run_demo = false ∧
      (step s PushButton.Multiple sw).led_write = some 0 ∧
      (∀ rest, runLoop (step s PushButton.Multiple sw).state rest
        = ((step s PushButton.Multiple sw).state, [], 0))) := by
  have hsw64 : sw < U64 := lt_trans hsw (by norm_num [U32, U64])
  have hcount : (s.counter.apply (fun _ => sw)).m_couter = sw % (s.counter.m_max + 1) := by
    rw [apply_m_couter, Nat.mod_eq_of_lt hsw64]
  rw [step_multiple s sw hprev]
  refine ⟨rfl, hcount, ?_, ?_⟩
  · simp [WrappedCounter.toCount, hcount]
  · intro h0
    subst h0
    have hzero : SWITCH_EXIT_SENTINEL % (s.counter.m_max + 1) = 0 := by
      simp [SWITCH_EXIT_SENTINEL]
    refine ⟨by simp [SWITCH_EXIT_SENTINEL], ?_, ?_⟩
    · simp [WrappedCounter.toCount, hcount, hzero, U32]
    · intro rest
      apply runLoop_halted
      simp [SWITCH_EXIT_SENTINEL]

theorem c5_multiple_dispatch_exit_witness :
    ((⟨⟨5, 15⟩, PushButton.None, true⟩ : DemoState).previous_button
        ≠ PushButton.Multiple ∧ (0 : Nat) < U32) ∧
    ((step ⟨⟨5, 15⟩, PushButton.None, true⟩ PushButton.Multiple 0).switch_read = true ∧
      (step ⟨⟨5, 15⟩, PushButton.None, true⟩ PushButton.Multiple 0).state.counter.m_couter
        = 0 % 16 ∧
      (step ⟨⟨5, 15⟩, PushButton.None, true⟩ PushButton.Multiple 0).led_write
        = some ((0 % 16) % U32) ∧
      ((0 : Nat) = SWITCH_EXIT_SENTINEL →
        (step ⟨⟨5, 15⟩, PushButton.None, true⟩ PushButton.Multiple 0).state.run_demo
          = false ∧
        (step ⟨⟨5, 15⟩, PushButton.None, true⟩ PushButton.Multiple 0).led_write
          = some 0 ∧
        (∀ rest, runLoop (step ⟨⟨5, 15⟩, PushButton.None, true⟩ PushButton.Multiple 0).state
            rest
          = ((step ⟨⟨5, 15⟩, PushButton.None, true⟩ PushButton.Multiple 0).state, [], 0)))) :=
  ⟨⟨by decide, by decide⟩,
    c5_multiple_dispatch_exit ⟨⟨5, 15⟩, PushButton.None, true⟩ 0 (by decide) (by decide)⟩

/-! ### Lemmas about the input decoder and popcount -/

theorem popcountAux_zero (fuel : Nat) : popcountAux fuel 0 = 0 := by
  induction fuel with
  | zero => rfl
  | succ f ih => simp [popcountAux, ih]

theorem popcountAux_eq_zero_iff (fuel : Nat) :
    ∀ n : Nat, n < 2 ^ fuel → (popcountAux fuel n = 0 ↔ n = 0) := by
  induction fuel with
  | zero =>
    intro n h
    simp only [popcountAux]
    constructor
    · intro _; omega
    · intro _; trivial
  | succ f ih =>
    intro n h
    have hd : n / 2 < 2 ^ f := by
      rw [pow_succ] at h
      omega
    constructor
    · intro hsum
      simp only [popcountAux] at hsum
      have h2 : popcountAux f (n / 2) = 0 := by omega
      have h1 : n % 2 = 0 := by omega
      have h3 : n / 2 = 0 := (ih (n / 2) hd).mp h2
      omega
    · rintro rfl
      simp [popcountAux, popcountAux_zero]

theorem popcount_eq_zero_iff (n : Nat) (h : n < U32) : (popcount n = 0 ↔ n = 0) := by
  refine popcountAux_eq_zero_iff 32 n ?_
  have e : (2 : Nat) ^ 32 = U32 := by norm_num [U32]
  rw [e]
  exact h

theorem decode_eq_multiple (r : Nat) (h0 : r ≠ 0) (h1 : r ≠ 1) (h2 : r ≠ 2)
    (h4 : r ≠ 4) (h8 : r ≠ 8) : PushButtonGet r = PushButton.Multiple := by
  simp [PushButtonGet, h0, h1, h2, h4, h8]

/-- Claim C6 counterexample: the 32-bit pattern `16` has exactly one bit
set (at position 4), yet it maps to `Multiple` and not to any of the four
`Button` variants — the claim's popcount-1 clause cannot hold for bit
positions outside the four button lines, since no `Button4` variant
exists. -/
theorem c6_counterexample :
    popcount 16 = 1 ∧ (16 : Nat) < U32 ∧
    PushButtonGet 16 = PushButton.Multiple ∧
    PushButtonGet 16 ≠ PushButton.Button0 ∧ PushButtonGet 16 ≠ PushButton.Button1 ∧
    PushButtonGet 16 ≠ PushButton.Button2 ∧ PushButtonGet 16 ≠ PushButton.Button3 ∧
    PushButtonGet 16 ≠ PushButton.None := by
  refine ⟨by decide, by decide, by decide, by decide, by decide, by decide, by decide,
    by decide⟩

/-- Claim C6 (amended): the decoder is a total deterministic function on
32-bit register values; popcount-0 patterns map to `None`; the four
single-bit patterns on the button lines (`1`, `2`, `4`, `8`, i.e. bit
positions 0-3) map to the corresponding `Button0`..`Button3`; patterns of
popcount 2 or more map to `Multiple`; and a popcount-1 pattern whose set
bit lies outside the button lines (position 4 or higher) also maps to
`Multiple`. -/
theorem c6_decoder_cases (r : Nat) (hr : r < U32) :
    (popcount r = 0 → PushButtonGet r = PushButton.None) ∧
    (r = 1 → PushButtonGet r = PushButton.Button0) ∧
    (r = 2 → PushButtonGet r = PushButton.Button1) ∧
    (r = 4 → PushButtonGet r = PushButton.Button2) ∧
    (r = 8 → PushButtonGet r = PushButton.Button3) ∧
    (2 ≤ popcount r → PushButtonGet r = PushButton.Multiple) ∧
    (popcount r = 1 → r ≠ 1 → r ≠ 2 → r ≠ 4 → r ≠ 8 →
      PushButtonGet r = PushButton.Multiple) := by
  refine ⟨?_, ?_, ?_, ?_, ?_, ?_, ?_⟩
  · intro hp
    have h0 : r = 0 := (popcount_eq_zero_iff r hr).mp hp
    subst h0
    decide
  · rintro rfl; decide
  · rintro rfl; decide
  · rintro rfl; decide
  · rintro rfl; decide
  · intro hp
    apply decode_eq_multiple
    · rintro rfl; exact absurd hp (by decide)
    · rintro rfl; exact absurd hp (by decide)
    · rintro rfl; exact absurd hp (by decide)
    · rintro rfl; exact absurd hp (by decide)
    · rintro rfl; exact absurd hp (by decide)
  · intro hp h1 h2 h4 h8
    apply decode_eq_multiple r ?_ h1 h2 h4 h8
    rintro rfl
    exact absurd hp (by decide)

theorem c6_decoder_cases_witness :
    ((16 : Nat) < U32) ∧
    ((popcount 16 = 0 → PushButtonGet 16 = PushButton.None) ∧
      ((16 : Nat) = 1 → PushButtonGet 16 = PushButton.Button0) ∧
      ((16 : Nat) = 2 → PushButtonGet 16 = PushButton.Button1) ∧
      ((16 : Nat) = 4 → PushButtonGet 16 = PushButton.Button2) ∧
      ((16 : Nat) = 8 → PushButtonGet 16 = PushButton.Button3) ∧
      (2 ≤ popcount 16 → PushButtonGet 16 = PushButton.Multiple) ∧
      (popcount 16 = 1 → (16 : Nat) ≠ 1 → (16 : Nat) ≠ 2 → (16 : Nat) ≠ 4 →
        (16 : Nat) ≠ 8 → PushButtonGet 16 = PushButton.Multiple)) :=
  ⟨by decide, c6_decoder_cases 16 (by decide)⟩

/-! ### The end-to-end scenario -/

/-- Claim C9 counterexample: in the spec's end-to-end scenario the LED
register is written three times, with values `0`, `0`, `15` — the `None`
iteration is not gate-skipped and re-writes the unchanged value `0` — so
the list of values written to the LEDs is not `[0, 15]`. -/
theorem c9_counterexample :
    (runLoop scenarioInit scenarioInputs).2.1 = [0, 0, 15] ∧
    (runLoop scenarioInit scenarioInputs).2.1 ≠ [0, 15] := by
  refine ⟨by decide, by decide⟩

/-- Claim C9 (amended): with `max = 15`, the counter starting at `15` and
`previous_button` starting at `None`, the reads `Button0, Button0, None,
Button1` drive the loop as follows: the first `Button0` wraps the counter
to `0` (LED write `0`), the repeated `Button0` is skipped by the no-change
gate (no write), the `None` iteration dispatches to the no-action arm and
re-writes the unchanged value `0`, and `Button1` wraps the counter back to
`15` (LED write `15`); so the LED writes are `0, 0, 15` (distinct values
`0` then `15`), no switch read occurs, and the loop ends with counter `15`,
`previous_button = Button1`, still running. -/
theorem c9_scenario :
    runLoop scenarioInit scenarioInputs
      = (⟨⟨15, 15⟩, PushButton.Button1, true⟩, [0, 0, 15], 0) := by
  decide
